import Mathlib

/-!
Verification of the auth-service core against its specification.

Shallow embedding of `src/auth-service`: value-type parsers (`Password`,
`Email`, `LoginAttemptId`, `TwoFACode`), the three in-memory stores
(`HashmapUserStore`, `HashsetBannedTokenStore`, `HashmapTwoFACodeStore`)
and the request handlers (`handle_signup`, `handle_login`, `handle_logout`,
`handle_verify_2fa`, `handle_verify_token`).  Rust strings are Lean
`String`s (lists of Unicode scalars); `HashMap`/`HashSet` state is modelled
by association lists / lists with the same observable behaviour; fallible
Rust functions return `Except`.  Unicode character classes from Rust
(`char::is_uppercase`, `char::is_lowercase`, `char::is_whitespace`) are
modelled by their ASCII restrictions.
-/

namespace Auth

/-- Model of Rust `char::is_uppercase` (restricted to ASCII `A`–`Z`). -/
def rustIsUppercase (c : Char) : Bool := c.isUpper

/-- Model of Rust `char::is_lowercase` (restricted to ASCII `a`–`z`). -/
def rustIsLowercase (c : Char) : Bool := c.isLower

/-- Rust `char::is_ascii_digit`: exactly `0`–`9`. -/
def rustIsAsciiDigit (c : Char) : Bool := c.isDigit

/-- Model of Rust `char::is_whitespace` (restricted to ASCII whitespace). -/
def rustIsWhitespace (c : Char) : Bool := c.isWhitespace

/-! ## Password (src/auth-service/src/domain/password.rs) -/

/-- `PasswordError` from `domain/password.rs`. -/
inductive PasswordError where
  | Empty
  | TooShort
  | TooLong
  | MissingUppercase
  | MissingLowercase
  | MissingDigit
deriving DecidableEq, Repr

/-- The validated `Password` newtype from `domain/password.rs`. -/
structure Password where
  raw : String
deriving DecidableEq, Repr

namespace Password

/-- `Password::parse` from `domain/password.rs`: empty check, Unicode-scalar
length in `[8, 128]` (`chars().count()`), then at least one uppercase,
lowercase and ASCII digit, checked in that order. -/
def parse (password : String) : Except PasswordError Password :=
  if password.data.isEmpty then .error .Empty
  else if password.data.length < 8 then .error .TooShort
  else if 128 < password.data.length then .error .TooLong
  else if !(password.data.any rustIsUppercase) then .error .MissingUppercase
  else if !(password.data.any rustIsLowercase) then .error .MissingLowercase
  else if !(password.data.any rustIsAsciiDigit) then .error .MissingDigit
  else .ok ⟨password⟩

end Password

/-! ## List helpers used to model string splitting -/

/-- Split a character list at the first occurrence of `sep`; `none` when
`sep` does not occur.  Models Rust `splitn(2, sep)`. -/
def splitAtFirst (sep : Char) : List Char → Option (List Char × List Char)
  | [] => none
  | c :: cs =>
    if c = sep then some ([], cs)
    else match splitAtFirst sep cs with
      | none => none
      | some (pre, post) => some (c :: pre, post)

/-- Split a character list at the last occurrence of `sep`; `none` when
`sep` does not occur.  Models Rust `rsplitn(2, sep)`. -/
def splitAtLast (sep : Char) (l : List Char) : Option (List Char × List Char) :=
  match splitAtFirst sep l.reverse with
  | none => none
  | some (post, pre) => some (pre.reverse, post.reverse)

/-- Split a character list on every occurrence of `sep` (like Rust
`str::split`, which yields empty pieces between adjacent separators). -/
def splitOnChar (sep : Char) : List Char → List (List Char)
  | [] => [[]]
  | c :: cs =>
    if c = sep then [] :: splitOnChar sep cs
    else match splitOnChar sep cs with
      | [] => [[c]]
      | g :: gs => (c :: g) :: gs

/-! ## Email (src/auth-service/src/domain/email.rs) -/

/-- `EmailError` from `domain/email.rs`. -/
inductive EmailError where
  | Empty
  | InvalidFormat
deriving DecidableEq, Repr

/-- The validated `Email` newtype from `domain/email.rs`. -/
structure Email where
  s : String
deriving DecidableEq, Repr

/-- Model of Rust `str::trim`: drop whitespace from both ends. -/
def rustTrim (s : String) : String :=
  ⟨List.rdropWhile rustIsWhitespace (s.data.dropWhile rustIsWhitespace)⟩

/-- Characters the `validator` crate's `EMAIL_USER_RE` accepts in the local
part: ASCII letters, digits, and `.!#$%&*+/=?^_~-` plus apostrophe (39),
backtick (96), braces (123/125) and pipe (124). -/
def emailUserChar (c : Char) : Bool :=
  c.isAlphanum ||
    ['.', '!', '#', '$', '%', '&', Char.ofNat 39, '*', '+', '/', '=', '?',
      Char.ofNat 94, '_', Char.ofNat 96, Char.ofNat 123, Char.ofNat 124,
      Char.ofNat 125, '~', '-'].contains c

/-- One hostname label of the `validator` crate's `EMAIL_DOMAIN_RE`:
1–63 characters, alphanumeric or hyphen, first and last alphanumeric. -/
def validLabel (l : List Char) : Bool :=
  !l.isEmpty && l.length ≤ 63 &&
    (match l.head? with | some c => c.isAlphanum | none => false) &&
    (match l.getLast? with | some c => c.isAlphanum | none => false) &&
    l.all (fun c => c.isAlphanum || c == '-')

/-- Domain part of the `validator` crate's email check: dot-separated
labels, each matching `validLabel`. -/
def validDomain (l : List Char) : Bool :=
  (splitOnChar '.' l).all validLabel

/-- Model of the `validator` crate's `validate_email` (the dependency
`email.rs` delegates to; its source is outside this repository, behaviour
pinned by the tests in `domain/email.rs`): split at the last `@`; the local
part must be non-empty, at most 64 characters, all `emailUserChar`; the
domain must be at most 255 characters of dot-separated `validLabel`s.
Bracketed IP-literal domains are omitted from the model (treated invalid). -/
def validate_email (s : String) : Bool :=
  match splitAtLast '@' s.data with
  | none => false
  | some (user, domain) =>
    !user.isEmpty && user.length ≤ 64 && domain.length ≤ 255 &&
      user.all emailUserChar && validDomain domain

namespace Email

/-- `Email::parse` from `domain/email.rs`: trim, fail `Empty` when nothing
is left, fail `InvalidFormat` when the `validator` check rejects, else
return the trimmed form. -/
def parse (email_str : String) : Except EmailError Email :=
  let t := rustTrim email_str
  if t.data.isEmpty then .error .Empty
  else if !(validate_email t) then .error .InvalidFormat
  else .ok ⟨t⟩

end Email


/-! ## LoginAttemptId (src/auth-service/src/domain/login_attempt_id.rs) -/

/-- Rust `char::is_ascii_hexdigit`. -/
def rustIsHexDigit (c : Char) : Bool :=
  c.isDigit || (97 ≤ c.toNat && c.toNat ≤ 102) || (65 ≤ c.toNat && c.toNat ≤ 70)

/-- Lowercase an ASCII hex digit (how `uuid::Uuid::to_string` renders). -/
def hexToLower (c : Char) : Char :=
  if 65 ≤ c.toNat && c.toNat ≤ 70 then Char.ofNat (c.toNat + 32) else c

/-- Model of `uuid::Uuid::parse_str` restricted to the canonical hyphenated
form (groups of 8-4-4-4-12 hex digits), returning the lowercased canonical
rendering.  The caller in `login_attempt_id.rs` pre-checks for exactly four
hyphens, which rules out the crate's simple 32-hex form; the rarely used
braced and URN forms are omitted from the model. -/
def uuidParse (l : List Char) : Option (List Char) :=
  match splitOnChar '-' l with
  | [g1, g2, g3, g4, g5] =>
    if g1.length = 8 && g2.length = 4 && g3.length = 4 && g4.length = 4 &&
        g5.length = 12 && (g1 ++ g2 ++ g3 ++ g4 ++ g5).all rustIsHexDigit then
      some ((g1 ++ '-' :: g2 ++ '-' :: g3 ++ '-' :: g4 ++ '-' :: g5).map hexToLower)
    else none
  | _ => none

/-- The `LoginAttemptId` newtype from `domain/login_attempt_id.rs`. -/
structure LoginAttemptId where
  id : String
deriving DecidableEq, Repr

namespace LoginAttemptId

/-- `LoginAttemptId::parse`: requires exactly four hyphens, then delegates
to `uuid::Uuid::parse_str`, storing the canonical lowercase rendering.
The Rust error payloads are strings; the model elides their text. -/
def parse (id : String) : Except Unit LoginAttemptId :=
  if id.data.count '-' ≠ 4 then .error ()
  else match uuidParse id.data with
    | none => .error ()
    | some canonical => .ok ⟨⟨canonical⟩⟩

end LoginAttemptId

/-! ## TwoFACode (src/auth-service/src/domain/two_fa_code.rs) -/

/-- The `TwoFACode` newtype from `domain/two_fa_code.rs`. -/
structure TwoFACode where
  code : String
deriving DecidableEq, Repr

namespace TwoFACode

/-- `TwoFACode::parse`: exactly 6 Unicode scalars (`chars().count()`), all
ASCII digits.  The Rust error payloads are strings; the model elides them. -/
def parse (code : String) : Except Unit TwoFACode :=
  if code.data.length ≠ 6 then .error ()
  else if !(code.data.all rustIsAsciiDigit) then .error ()
  else .ok ⟨code⟩

end TwoFACode

/-! ## Store error types (src/auth-service/src/domain/data_stores.rs) -/

inductive UserStoreError where
  | UserAlreadyExists
  | UserNotFound
  | InvalidCredentials
  | UnexpectedError
deriving DecidableEq, Repr

inductive BannedTokenStoreError where
  | TokenAlreadyBanned
deriving DecidableEq, Repr

inductive TwoFACodeStoreError where
  | CodeNotFound
  | CodeAlreadyExists
deriving DecidableEq, Repr

/-! ## API error type (src/auth-service/src/domain/error.rs) -/

inductive AuthAPIError where
  | InvalidCredentials
  | MissingToken
  | Unauthorized
  | InvalidToken
  | UserNotFound
  | UserAlreadyExists
  | UnprocessableContent
  | UnexpectedError
deriving DecidableEq, Repr

/-- HTTP status each `AuthAPIError` renders to (`IntoResponse` in
`domain/error.rs`). -/
def AuthAPIError.status : AuthAPIError → Nat
  | .InvalidCredentials => 400
  | .MissingToken => 400
  | .Unauthorized => 401
  | .InvalidToken => 401
  | .UserNotFound => 404
  | .UserAlreadyExists => 409
  | .UnprocessableContent => 422
  | .UnexpectedError => 500

/-- `From<TwoFACodeStoreError> for AuthAPIError` in `domain/error.rs`. -/
def twoFAErrToAPI : TwoFACodeStoreError → AuthAPIError
  | .CodeNotFound => .Unauthorized
  | .CodeAlreadyExists => .UserAlreadyExists

/-- `From<EmailError> for AuthAPIError` in `domain/error.rs`. -/
def emailErrToAPI : EmailError → AuthAPIError := fun _ => .InvalidCredentials

/-- `From<PasswordError> for AuthAPIError` in `domain/error.rs`. -/
def passwordErrToAPI : PasswordError → AuthAPIError := fun _ => .InvalidCredentials

/-- `LogoutError` from `routes/logout.rs`. -/
inductive LogoutError where
  | MissingToken
  | InvalidToken
deriving DecidableEq, Repr

/-- `From<LogoutError> for AuthAPIError` in `domain/error.rs`. -/
def logoutErrToAPI : LogoutError → AuthAPIError
  | .MissingToken => .MissingToken
  | .InvalidToken => .InvalidToken

/-! ## Association-list helpers modelling `HashMap` -/

/-- `HashMap::get` on an association list. -/
def alistGet {α β : Type} [DecidableEq α] : List (α × β) → α → Option β
  | [], _ => none
  | (a, b) :: rest, k => if a = k then some b else alistGet rest k

/-- `HashMap::remove` on an association list (keys are unique by
construction, so removing every binding of the key is the same). -/
def alistRemove {α β : Type} [DecidableEq α] (m : List (α × β)) (k : α) :
    List (α × β) :=
  m.filter (fun p => decide (p.1 ≠ k))

/-! ## Banned-token store
(src/auth-service/src/services/hashset_banned_token_store.rs) -/

/-- `HashsetBannedTokenStore`: the `HashSet<String>` is modelled by the
list of inserted tokens; only membership is observable. -/
structure HashsetBannedTokenStore where
  banned_tokens : List String
deriving DecidableEq, Repr

namespace HashsetBannedTokenStore

/-- `ban_token`: error `TokenAlreadyBanned` when present, else insert. -/
def ban_token (store : HashsetBannedTokenStore) (token : String) :
    HashsetBannedTokenStore × Except BannedTokenStoreError Unit :=
  if store.banned_tokens.contains token then
    (store, .error .TokenAlreadyBanned)
  else
    (⟨token :: store.banned_tokens⟩, .ok ())

/-- `is_banned`: membership test. -/
def is_banned (store : HashsetBannedTokenStore) (token : String) : Bool :=
  store.banned_tokens.contains token

/-- Any sequence of later `ban_token` calls (the only mutating operation
the `BannedTokenStore` trait offers), applied in order. -/
def applyBans (store : HashsetBannedTokenStore) (tokens : List String) :
    HashsetBannedTokenStore :=
  tokens.foldl (fun st tk => (st.ban_token tk).1) store

end HashsetBannedTokenStore

/-! ## Two-FA code store
(src/auth-service/src/services/hashmap_two_fa_code_store.rs) -/

/-- The `HashMap<Email, (LoginAttemptId, TwoFACode)>` of
`HashmapTwoFACodeStore`, as an association list. -/
abbrev TwoFAMap := List (Email × (LoginAttemptId × TwoFACode))

namespace TwoFAMap

/-- `add_code`: error `CodeAlreadyExists` when the email has a record,
else insert. -/
def add_code (m : TwoFAMap) (email : Email) (login_attempt_id : LoginAttemptId)
    (code : TwoFACode) : TwoFAMap × Except TwoFACodeStoreError Unit :=
  if (alistGet m email).isSome then (m, .error .CodeAlreadyExists)
  else ((email, (login_attempt_id, code)) :: m, .ok ())

/-- `remove_code`: error `CodeNotFound` when absent, else delete. -/
def remove_code (m : TwoFAMap) (email : Email) :
    TwoFAMap × Except TwoFACodeStoreError Unit :=
  if (alistGet m email).isSome then (alistRemove m email, .ok ())
  else (m, .error .CodeNotFound)

/-- `get_code`: lookup, error `CodeNotFound` when absent. -/
def get_code (m : TwoFAMap) (email : Email) :
    Except TwoFACodeStoreError (LoginAttemptId × TwoFACode) :=
  match alistGet m email with
  | some v => .ok v
  | none => .error .CodeNotFound

end TwoFAMap

/-! ## User store (src/auth-service/src/services/hashmap_user_store.rs)

`HashedPassword` is referenced throughout the source (`domain/user.rs`,
`routes/login.rs`) but its module is not under `src/`. -/

/-- Modelled from the spec: `HashedPassword` — the opaque stored credential
(§3).  Its defining module is missing from `src/`; the in-repository
`HashmapUserStore::validate_user` compares the stored credential against
the submitted one with `!=`, so the model keeps the credential as an
opaque string compared by equality. -/
structure HashedPassword where
  s : String
deriving DecidableEq, Repr

namespace HashedPassword

/-- Modelled from the spec: `HashedPassword::parse(raw)` "re-validates
raw-password rules, then computes a memory-hard hash" (§4.1).  The module
is missing from `src/`; the model applies the `Password::parse` gate and
keeps the credential content opaque (equality-compatible with the
in-repository store's `!=` comparison). -/
def parse (raw : String) : Except PasswordError HashedPassword :=
  match Password.parse raw with
  | .error e => .error e
  | .ok p => .ok ⟨p.raw⟩

end HashedPassword

/-- `User` from `domain/user.rs`: email, stored credential, 2FA flag. -/
structure User where
  email : Email
  password : HashedPassword
  requires_2fa : Bool
deriving DecidableEq, Repr

/-- The `HashMap<Email, User>` of `HashmapUserStore`, as an association
list. -/
abbrev UserMap := List (Email × User)

namespace UserMap

/-- `HashmapUserStore::add_user`: error `UserAlreadyExists` when the
user's email is a key, else insert keyed by the user's email. -/
def add_user (m : UserMap) (user : User) : UserMap × Except UserStoreError Unit :=
  if (alistGet m user.email).isSome then (m, .error .UserAlreadyExists)
  else ((user.email, user) :: m, .ok ())

/-- `HashmapUserStore::get_user`: lookup, error `UserNotFound` when
absent. -/
def get_user (m : UserMap) (email : Email) : Except UserStoreError User :=
  match alistGet m email with
  | some u => .ok u
  | none => .error .UserNotFound

/-- `HashmapUserStore::validate_user`: `get_user` (propagating
`UserNotFound`), then compare the stored credential with the submitted
password; mismatch is `InvalidCredentials`. -/
def validate_user (m : UserMap) (email : Email) (password : String) :
    Except UserStoreError Unit :=
  match get_user m email with
  | .error e => .error e
  | .ok user => if user.password.s ≠ password then .error .InvalidCredentials
                else .ok ()

end UserMap

/-! ## Token plumbing (src/auth-service/src/utils/auth.rs is declared in
`utils/mod.rs` but missing from `src/`; its functions are abstracted as
handler parameters) -/

/-- The JWT auth cookie set on success; only its token string is
observable to the claims. -/
structure Cookie where
  token : String
deriving DecidableEq, Repr

/-- Type of `generate_auth_cookie` from the missing `utils/auth.rs`:
mints the signed cookie for an email, or fails (surfaced as a 500).
Handlers take it as a parameter. -/
abbrev GenCookie := Email → Except Unit Cookie

/-- Type of `validate_token` from the missing `utils/auth.rs`: given the
banned-token store and a token, returns the bound email or fails.
Handlers take it as a parameter. -/
abbrev ValidateToken := HashsetBannedTokenStore → String → Except Unit Email

/-! ## Signup route (src/auth-service/src/routes/signup.rs) -/

/-- `SignupPayload` from `routes/signup.rs`. -/
structure SignupPayload where
  email : String
  password : String
  requires_2fa : Bool
deriving DecidableEq, Repr

/-- `is_valid_email` from `routes/signup.rs`: the anchored regex
`[a-zA-Z0-9._%+-]+ "@" [a-zA-Z0-9.-]+ "." [a-zA-Z]{2,}`.  Characters after
the last dot must be alphabetic, so a match decomposes at the first `@`
and the last `.` of the remainder. -/
def signupLocalChar (c : Char) : Bool :=
  c.isAlphanum || ['.', '_', '%', '+', '-'].contains c

def signupDomainChar (c : Char) : Bool :=
  c.isAlphanum || c == '.' || c == '-'

def is_valid_email (email : String) : Bool :=
  match splitAtFirst '@' email.data with
  | none => false
  | some (lpart, rest) =>
    !lpart.isEmpty && lpart.all signupLocalChar &&
      (match splitAtLast '.' rest with
       | none => false
       | some (dpart, tld) =>
         !dpart.isEmpty && dpart.all signupDomainChar &&
           2 ≤ tld.length && tld.all Char.isAlpha)

/-- `is_valid_pwd` from `routes/signup.rs`: only checks that the password
has at least 8 Unicode scalars (`chars().collect().len() >= 8`). -/
def is_valid_pwd (password : String) : Bool :=
  8 ≤ password.data.length

/-- The user record `handle_signup` stores; the route works on the raw
payload strings (`User::new(payload.email, payload.password, ...)`). -/
structure RawUser where
  email : String
  password : String
  requires_2fa : Bool
deriving DecidableEq, Repr

/-- The user store as `handle_signup` uses it, keyed by the raw email
string. -/
abbrev RawUserMap := List (String × RawUser)

/-- `handle_signup` from `routes/signup.rs`: reject with
`InvalidCredentials` (400) unless `is_valid_email` and `is_valid_pwd`
both pass; `UserAlreadyExists` (409) when the email is taken (checked by
`get_user`, re-checked by `add_user`); else create the user (201). -/
def handle_signup (store : RawUserMap) (payload : SignupPayload) :
    RawUserMap × Except AuthAPIError Unit :=
  if !(is_valid_email payload.email) || !(is_valid_pwd payload.password) then
    (store, .error .InvalidCredentials)
  else if (alistGet store payload.email).isSome then
    (store, .error .UserAlreadyExists)
  else
    let user : RawUser := ⟨payload.email, payload.password, payload.requires_2fa⟩
    if (alistGet store payload.email).isSome then (store, .error .UserAlreadyExists)
    else ((payload.email, user) :: store, .ok ())

/-! ## Login route (src/auth-service/src/routes/login.rs) -/

/-- `LoginPayload` from `routes/login.rs`. -/
structure LoginPayload where
  email : String
  password : String
deriving DecidableEq, Repr

/-- The login route's possible outcomes (`LoginResponse` plus the error
side of the handler result). -/
inductive LoginResult where
  | ok200 (cookie : Cookie)
  | partial206 (message : String) (login_attempt_id : String)
  | err (e : AuthAPIError)
deriving DecidableEq, Repr

/-- `handle_2fa` from `routes/login.rs`: store a fresh challenge
(`CodeAlreadyExists` is surfaced through `From<TwoFACodeStoreError>`),
dispatch the code by email (failure is `UnexpectedError`), return 206 with
the attempt id.  The random `LoginAttemptId::default()` /
`TwoFACode::default()` draws and the email client are injected. -/
def handle_2fa (freshId : LoginAttemptId) (freshCode : TwoFACode)
    (sendEmail : Email → String → Except Unit Unit)
    (email : Email) (st : TwoFAMap) : TwoFAMap × LoginResult :=
  match TwoFAMap.add_code st email freshId freshCode with
  | (st1, .error _) => (st1, .err (twoFAErrToAPI .CodeAlreadyExists))
  | (st1, .ok ()) =>
    match sendEmail email freshCode.code with
    | .error () => (st1, .err .UnexpectedError)
    | .ok () => (st1, .partial206 "2FA required" freshId.id)

/-- `handle_no_2fa` from `routes/login.rs`: mint the auth cookie
(failure is `UnexpectedError`) and return 200. -/
def handle_no_2fa (genCookie : GenCookie) (email : Email) : LoginResult :=
  match genCookie email with
  | .error () => .err .UnexpectedError
  | .ok cookie => .ok200 cookie

/-- `handle_login` from `routes/login.rs`: parse the email
(`From<EmailError>` maps failures to `InvalidCredentials`), gate the raw
password through `HashedPassword::parse` (failure is
`InvalidCredentials`), then `validate_user` — any failure is
`Unauthorized` — then `get_user` and branch on `requires_2fa`. -/
def handle_login (genCookie : GenCookie) (freshId : LoginAttemptId)
    (freshCode : TwoFACode) (sendEmail : Email → String → Except Unit Unit)
    (userStore : UserMap) (st : TwoFAMap) (payload : LoginPayload) :
    TwoFAMap × LoginResult :=
  match Email.parse payload.email with
  | .error e => (st, .err (emailErrToAPI e))
  | .ok email =>
    match HashedPassword.parse payload.password with
    | .error _ => (st, .err .InvalidCredentials)
    | .ok _ =>
      match UserMap.validate_user userStore email payload.password with
      | .error _ => (st, .err .Unauthorized)
      | .ok () =>
        match UserMap.get_user userStore email with
        | .error _ => (st, .err .InvalidCredentials)
        | .ok user =>
          if user.requires_2fa then
            handle_2fa freshId freshCode sendEmail user.email st
          else (st, handle_no_2fa genCookie user.email)

/-! ## Logout route (src/auth-service/src/routes/logout.rs) -/

/-- `handle_logout` from `routes/logout.rs`: no cookie → `MissingToken`;
empty token → `InvalidToken`; `validate_token` failure → `InvalidToken`;
`ban_token` reporting `TokenAlreadyBanned` → `InvalidToken`; else ban the
token and succeed.  `validate_token` lives in the missing
`utils/auth.rs` and is injected. -/
def handle_logout (validate_token : ValidateToken)
    (store : HashsetBannedTokenStore) (cookie : Option String) :
    HashsetBannedTokenStore × Except AuthAPIError Unit :=
  match cookie with
  | none => (store, .error (logoutErrToAPI .MissingToken))
  | some token =>
    if token.data.isEmpty then (store, .error (logoutErrToAPI .InvalidToken))
    else match validate_token store token with
      | .error () => (store, .error (logoutErrToAPI .InvalidToken))
      | .ok _ =>
        match store.ban_token token with
        | (st, .error .TokenAlreadyBanned) => (st, .error (logoutErrToAPI .InvalidToken))
        | (st, .ok ()) => (st, .ok ())

/-! ## Verify-2FA route (src/auth-service/src/routes/verify_2fa.rs) -/

/-- `Verify2FAPayload` from `routes/verify_2fa.rs`. -/
structure Verify2FAPayload where
  email : String
  login_attempt_id : String
  code : String
deriving DecidableEq, Repr

/-- `verify_payload` from `routes/verify_2fa.rs`: parse the email, the
attempt id and the code; any failure is `InvalidCredentials` (400). -/
def verify_payload (payload : Verify2FAPayload) :
    Except AuthAPIError (Email × LoginAttemptId × TwoFACode) :=
  match Email.parse payload.email with
  | .error _ => .error .InvalidCredentials
  | .ok email =>
    match LoginAttemptId.parse payload.login_attempt_id with
    | .error () => .error .InvalidCredentials
    | .ok id =>
      match TwoFACode.parse payload.code with
      | .error () => .error .InvalidCredentials
      | .ok code => .ok (email, id, code)

/-- `handle_verify_2fa` from `routes/verify_2fa.rs`: validate the payload;
look up the challenge (`CodeNotFound` surfaces through
`From<TwoFACodeStoreError>` as `Unauthorized`); compare the submitted and
stored attempt id and code as strings (`as_ref()`), mismatch on either is
`Unauthorized`; on match remove the record, then mint the cookie
(failure is a 500 via `GenerateTokenError`, after the removal). -/
def handle_verify_2fa (genCookie : GenCookie) (store : TwoFAMap)
    (payload : Verify2FAPayload) : TwoFAMap × Except AuthAPIError Cookie :=
  match verify_payload payload with
  | .error e => (store, .error e)
  | .ok (email, login_attempt_id, code) =>
    match TwoFAMap.get_code store email with
    | .error _ => (store, .error (twoFAErrToAPI .CodeNotFound))
    | .ok (store_login_attempt_id, store_code) =>
      if login_attempt_id.id ≠ store_login_attempt_id.id ∨
          code.code ≠ store_code.code then
        (store, .error .Unauthorized)
      else
        let store1 := (TwoFAMap.remove_code store email).1
        match genCookie email with
        | .error () => (store1, .error .UnexpectedError)
        | .ok cookie => (store1, .ok cookie)

/-! ## Verify-token route (src/auth-service/src/routes/verify_token.rs) -/

/-- `VerifyTokenPayload` from `routes/verify_token.rs`. -/
structure VerifyTokenPayload where
  token : String
deriving DecidableEq, Repr

/-- `handle_verify_token` from `routes/verify_token.rs`: the handler body
ignores the payload and returns `StatusCode::OK` unconditionally (the
`TokenState` enum with its 401 arm is defined in the file but never
used). -/
def handle_verify_token (_payload : VerifyTokenPayload) : Nat := 200

/-! ## Helper lemmas -/

theorem alistGet_remove_self {α β : Type} [DecidableEq α] (m : List (α × β)) (k : α) :
    alistGet (alistRemove m k) k = none := by
  induction m with
  | nil => rfl
  | cons p rest ih =>
    by_cases h : p.1 = k
    · simpa [alistRemove, List.filter_cons, h] using ih
    · simpa [alistRemove, List.filter_cons, h, alistGet] using ih

theorem dropWhile_head_false {α : Type} (p : α → Bool) :
    ∀ (l : List α) (c : α) (ms : List α), l.dropWhile p = c :: ms → p c = false := by
  intro l
  induction l with
  | nil => intro c ms h; simp at h
  | cons a as ih =>
    intro c ms h
    rw [List.dropWhile_cons] at h
    by_cases ha : p a = true
    · rw [if_pos ha] at h
      exact ih c ms h
    · rw [if_neg ha] at h
      cases h
      simpa using ha

theorem dropWhile_rdropWhile_dropWhile (l : List Char) :
    List.dropWhile rustIsWhitespace
        (List.rdropWhile rustIsWhitespace (l.dropWhile rustIsWhitespace)) =
      List.rdropWhile rustIsWhitespace (l.dropWhile rustIsWhitespace) := by
  obtain ⟨t, hsplit⟩ : ∃ t, l.dropWhile rustIsWhitespace =
      List.rdropWhile rustIsWhitespace (l.dropWhile rustIsWhitespace) ++ t := by
    refine ⟨((l.dropWhile rustIsWhitespace).reverse.takeWhile rustIsWhitespace).reverse, ?_⟩
    rw [List.rdropWhile]
    conv_lhs => rw [← (l.dropWhile rustIsWhitespace).reverse_reverse,
      ← List.takeWhile_append_dropWhile (p := rustIsWhitespace)
        (l := (l.dropWhile rustIsWhitespace).reverse)]
    rw [List.reverse_append]
  cases hx : List.rdropWhile rustIsWhitespace (l.dropWhile rustIsWhitespace) with
  | nil => rfl
  | cons c ms =>
    rw [hx] at hsplit
    have hwc : rustIsWhitespace c = false :=
      dropWhile_head_false _ l c (ms ++ t) (by simpa using hsplit)
    rw [List.dropWhile_cons, if_neg (by simp [hwc])]

theorem rustTrim_idem (s : String) : rustTrim (rustTrim s) = rustTrim s := by
  have h2 : (rustTrim s).data.dropWhile rustIsWhitespace = (rustTrim s).data :=
    dropWhile_rdropWhile_dropWhile s.data
  show (⟨List.rdropWhile rustIsWhitespace ((rustTrim s).data.dropWhile rustIsWhitespace)⟩ :
      String) = rustTrim s
  rw [h2]
  show (⟨List.rdropWhile rustIsWhitespace
      (List.rdropWhile rustIsWhitespace (s.data.dropWhile rustIsWhitespace))⟩ : String) = rustTrim s
  rw [List.rdropWhile_idempotent]
  rfl

theorem rustTrim_all_whitespace (s : String) (h : s.data.all rustIsWhitespace = true) :
    (rustTrim s).data = [] := by
  have h2 : s.data.dropWhile rustIsWhitespace = [] := by
    rw [List.dropWhile_eq_nil_iff]
    intro x hx
    exact List.all_eq_true.mp h x hx
  show List.rdropWhile rustIsWhitespace (s.data.dropWhile rustIsWhitespace) = []
  rw [h2, List.rdropWhile_nil]

theorem is_banned_ban_token_self (store : HashsetBannedTokenStore) (t : String) :
    HashsetBannedTokenStore.is_banned (store.ban_token t).1 t = true := by
  by_cases h : t ∈ store.banned_tokens <;>
    simp [HashsetBannedTokenStore.ban_token, HashsetBannedTokenStore.is_banned, h]

theorem is_banned_ban_token_mono (store : HashsetBannedTokenStore) (t u : String)
    (h : HashsetBannedTokenStore.is_banned store t = true) :
    HashsetBannedTokenStore.is_banned (store.ban_token u).1 t = true := by
  have h2 : t ∈ store.banned_tokens := by
    simpa [HashsetBannedTokenStore.is_banned] using h
  by_cases hc : u ∈ store.banned_tokens <;>
    simp [HashsetBannedTokenStore.ban_token, HashsetBannedTokenStore.is_banned, hc, h2]

theorem is_banned_applyBans_mono (t : String) (ops : List String) :
    ∀ store : HashsetBannedTokenStore,
      HashsetBannedTokenStore.is_banned store t = true →
      HashsetBannedTokenStore.is_banned
        (HashsetBannedTokenStore.applyBans store ops) t = true := by
  induction ops with
  | nil => intro store h; exact h
  | cons op rest ih =>
    intro store h
    exact ih _ (is_banned_ban_token_mono store t op h)

theorem ban_token_of_banned (store : HashsetBannedTokenStore) (t : String)
    (h : HashsetBannedTokenStore.is_banned store t = true) :
    store.ban_token t = (store, .error .TokenAlreadyBanned) := by
  have h2 : t ∈ store.banned_tokens := by
    simpa [HashsetBannedTokenStore.is_banned] using h
  simp [HashsetBannedTokenStore.ban_token, h2]

/-! ## Claim theorems -/

/-- C2: the Revoked-Token Ledger is monotonic.  After `ban_token t` the
token is banned, it stays banned across any sequence of later `ban_token`
calls (the only mutating operation the store offers), and a second
`ban_token t` returns `TokenAlreadyBanned` instead of succeeding. -/
theorem banned_token_ledger_monotonic (store : HashsetBannedTokenStore) (t : String) :
    HashsetBannedTokenStore.is_banned (store.ban_token t).1 t = true ∧
    (∀ ops : List String,
      HashsetBannedTokenStore.is_banned
        (HashsetBannedTokenStore.applyBans (store.ban_token t).1 ops) t = true) ∧
    ((store.ban_token t).1.ban_token t).2 = .error .TokenAlreadyBanned := by
  refine ⟨is_banned_ban_token_self store t, ?_, ?_⟩
  · intro ops
    exact is_banned_applyBans_mono t ops _ (is_banned_ban_token_self store t)
  · rw [ban_token_of_banned _ _ (is_banned_ban_token_self store t)]

/-- C3: `handle_verify_token` returns HTTP 200 for every payload, including
invalid tokens — the body never consults the token, contradicting the spec
(and the repository's own test `should_return_401_if_invalid_token`). -/
theorem verify_token_always_200 :
    (∀ payload : VerifyTokenPayload, handle_verify_token payload = 200) ∧
    handle_verify_token ⟨"invalid.jwt.token"⟩ = 200 ∧
    AuthAPIError.status .InvalidToken = 401 :=
  ⟨fun _ => rfl, rfl, rfl⟩

set_option linter.unnecessarySeqFocus false in
/-- C4: full characterization of `Password::parse`.  It succeeds exactly
when the Unicode-scalar length is in `[8, 128]` and the string has an
uppercase letter, a lowercase letter and an ASCII digit; on failure the
error is the first failing rule in the order `Empty`, `TooShort`,
`TooLong`, `MissingUppercase`, `MissingLowercase`, `MissingDigit`. -/
theorem password_parse_characterization (s : String) :
    ((∃ pw, Password.parse s = .ok pw) ↔
      (8 ≤ s.data.length ∧ s.data.length ≤ 128 ∧
        s.data.any rustIsUppercase = true ∧ s.data.any rustIsLowercase = true ∧
        s.data.any rustIsAsciiDigit = true)) ∧
    (Password.parse s = .error .Empty ↔ s.data = []) ∧
    (Password.parse s = .error .TooShort ↔ (s.data ≠ [] ∧ s.data.length < 8)) ∧
    (Password.parse s = .error .TooLong ↔ 128 < s.data.length) ∧
    (Password.parse s = .error .MissingUppercase ↔
      (8 ≤ s.data.length ∧ s.data.length ≤ 128 ∧
        s.data.any rustIsUppercase = false)) ∧
    (Password.parse s = .error .MissingLowercase ↔
      (8 ≤ s.data.length ∧ s.data.length ≤ 128 ∧
        s.data.any rustIsUppercase = true ∧ s.data.any rustIsLowercase = false)) ∧
    (Password.parse s = .error .MissingDigit ↔
      (8 ≤ s.data.length ∧ s.data.length ≤ 128 ∧
        s.data.any rustIsUppercase = true ∧ s.data.any rustIsLowercase = true ∧
        s.data.any rustIsAsciiDigit = false)) := by
  unfold Password.parse
  split_ifs with h1 h2 h3 h4 h5 h6 <;>
    simp_all [List.isEmpty_iff, Nat.lt_iff_add_one_le] <;>
    omega

/-- C9: email normalization is trimming and idempotent.  Empty or
whitespace-only input fails with `Empty`; an accepted input is stored as
its trimmed form, and re-parsing the stored form returns the same value. -/
theorem email_parse_trim_idempotent (s : String) :
    (s.data.all rustIsWhitespace = true → Email.parse s = .error .Empty) ∧
    (∀ e : Email, Email.parse s = .ok e →
      e.s = rustTrim s ∧ Email.parse e.s = .ok e) := by
  constructor
  · intro h
    unfold Email.parse
    simp [rustTrim_all_whitespace s h]
  · intro e he
    unfold Email.parse at he
    by_cases h1 : (rustTrim s).data.isEmpty
    · simp [h1] at he
    · by_cases h2 : validate_email (rustTrim s) = true
      · simp [h1, h2] at he
        obtain rfl : (⟨rustTrim s⟩ : Email) = e := he
        refine ⟨rfl, ?_⟩
        unfold Email.parse
        rw [rustTrim_idem]
        simp [h1, h2]
      · simp [h1, h2] at he

/-- Witness for C9 at concrete inputs: whitespace-only input fails
`Empty`; a padded address is stored trimmed and re-parses to itself. -/
theorem email_parse_trim_idempotent_witness :
    Email.parse "   " = .error .Empty ∧
    ((⟨"user@example.com"⟩ : Email).s = rustTrim "  user@example.com  " ∧
      Email.parse (⟨"user@example.com"⟩ : Email).s = .ok ⟨"user@example.com"⟩) :=
  ⟨(email_parse_trim_idempotent "   ").1 (by decide),
    (email_parse_trim_idempotent "  user@example.com  ").2 ⟨"user@example.com"⟩ rfl⟩

/-- C6: at most one outstanding challenge per email.  When an email already
has a stored `(LoginAttemptId, TwoFACode)` pair, a second `add_code` for it
returns `CodeAlreadyExists` and leaves the stored pair unchanged. -/
theorem add_code_conflict_preserves_record (m : TwoFAMap) (email : Email)
    (id id2 : LoginAttemptId) (code code2 : TwoFACode)
    (h : TwoFAMap.get_code m email = .ok (id, code)) :
    TwoFAMap.add_code m email id2 code2 = (m, .error .CodeAlreadyExists) ∧
    TwoFAMap.get_code (TwoFAMap.add_code m email id2 code2).1 email = .ok (id, code) := by
  have hg : alistGet m email = some (id, code) := by
    unfold TwoFAMap.get_code at h
    cases hx : alistGet m email <;> rw [hx] at h <;> simp_all
  have ha : TwoFAMap.add_code m email id2 code2 = (m, .error .CodeAlreadyExists) := by
    unfold TwoFAMap.add_code
    simp [hg]
  exact ⟨ha, by rw [ha]; exact h⟩

/-- Witness for C6 at a concrete store: re-adding a challenge for an email
that has one fails and the stored pair survives. -/
theorem add_code_conflict_preserves_record_witness :
    TwoFAMap.add_code
        [(⟨"a@b.com"⟩, (⟨"550e8400-e29b-41d4-a716-446655440000"⟩, ⟨"123456"⟩))]
        ⟨"a@b.com"⟩ ⟨"6ba7b810-9dad-11d1-80b4-00c04fd430c8"⟩ ⟨"654321"⟩ =
      ([(⟨"a@b.com"⟩, (⟨"550e8400-e29b-41d4-a716-446655440000"⟩, ⟨"123456"⟩))],
        .error .CodeAlreadyExists) ∧
    TwoFAMap.get_code
        (TwoFAMap.add_code
          [(⟨"a@b.com"⟩, (⟨"550e8400-e29b-41d4-a716-446655440000"⟩, ⟨"123456"⟩))]
          ⟨"a@b.com"⟩ ⟨"6ba7b810-9dad-11d1-80b4-00c04fd430c8"⟩ ⟨"654321"⟩).1
        ⟨"a@b.com"⟩ =
      .ok (⟨"550e8400-e29b-41d4-a716-446655440000"⟩, ⟨"123456"⟩) :=
  add_code_conflict_preserves_record _ _ _ _ _ _ rfl

/-- C1: successful 2FA verification consumes the challenge.  When the
submitted payload parses to `(email, id, code)` and the store holds exactly
that pair for the email, the handler's resulting store no longer has the
record — for every cookie generator, i.e. the removal happens before token
issuance — and replaying the same payload against the resulting store
fails with `Unauthorized` (via `CodeNotFound`). -/
theorem verify_2fa_consumes_challenge (genCookie : GenCookie) (store : TwoFAMap)
    (payload : Verify2FAPayload) (email : Email) (id : LoginAttemptId) (code : TwoFACode)
    (hp : verify_payload payload = .ok (email, id, code))
    (hs : TwoFAMap.get_code store email = .ok (id, code)) :
    TwoFAMap.get_code (handle_verify_2fa genCookie store payload).1 email =
      .error .CodeNotFound ∧
    handle_verify_2fa genCookie (handle_verify_2fa genCookie store payload).1 payload =
      ((handle_verify_2fa genCookie store payload).1, .error .Unauthorized) := by
  have hg : alistGet store email = some (id, code) := by
    unfold TwoFAMap.get_code at hs
    cases hx : alistGet store email <;> rw [hx] at hs <;> simp_all
  have hrm : TwoFAMap.remove_code store email = (alistRemove store email, .ok ()) := by
    unfold TwoFAMap.remove_code
    simp [hg]
  have hfst : (handle_verify_2fa genCookie store payload).1 = alistRemove store email := by
    unfold handle_verify_2fa
    rw [hp]
    cases hgc : genCookie email <;> simp [hs, hrm, hgc]
  have hgone : TwoFAMap.get_code (alistRemove store email) email = .error .CodeNotFound := by
    unfold TwoFAMap.get_code
    rw [alistGet_remove_self]
  refine ⟨by rw [hfst]; exact hgone, ?_⟩
  rw [hfst]
  unfold handle_verify_2fa
  rw [hp]
  simp [hgone, twoFAErrToAPI]

/-- Witness for C1 at a concrete store and payload: the matching record is
consumed, and the replay is rejected with `Unauthorized`. -/
theorem verify_2fa_consumes_challenge_witness :
    TwoFAMap.get_code
        (handle_verify_2fa (fun _ => .ok ⟨"token"⟩)
          [(⟨"a@b.com"⟩, (⟨"550e8400-e29b-41d4-a716-446655440000"⟩, ⟨"123456"⟩))]
          ⟨"a@b.com", "550e8400-e29b-41d4-a716-446655440000", "123456"⟩).1
        ⟨"a@b.com"⟩ = .error .CodeNotFound ∧
    handle_verify_2fa (fun _ => .ok ⟨"token"⟩)
        (handle_verify_2fa (fun _ => .ok ⟨"token"⟩)
          [(⟨"a@b.com"⟩, (⟨"550e8400-e29b-41d4-a716-446655440000"⟩, ⟨"123456"⟩))]
          ⟨"a@b.com", "550e8400-e29b-41d4-a716-446655440000", "123456"⟩).1
        ⟨"a@b.com", "550e8400-e29b-41d4-a716-446655440000", "123456"⟩ =
      ((handle_verify_2fa (fun _ => .ok ⟨"token"⟩)
          [(⟨"a@b.com"⟩, (⟨"550e8400-e29b-41d4-a716-446655440000"⟩, ⟨"123456"⟩))]
          ⟨"a@b.com", "550e8400-e29b-41d4-a716-446655440000", "123456"⟩).1,
        .error .Unauthorized) :=
  verify_2fa_consumes_challenge _ _ _ _ _ _ rfl rfl

/-- C5: logout error paths.  A missing cookie is `MissingToken` (400); an
empty token, a token failing `validate_token`, and a token whose ban is
reported `TokenAlreadyBanned` by the ledger are all `InvalidToken` (401),
and in each case the ledger is left unchanged. -/
theorem logout_error_paths (vt : ValidateToken) (store : HashsetBannedTokenStore) :
    handle_logout vt store none = (store, .error .MissingToken) ∧
    handle_logout vt store (some "") = (store, .error .InvalidToken) ∧
    (∀ t : String, t.data ≠ [] → vt store t = .error () →
      handle_logout vt store (some t) = (store, .error .InvalidToken)) ∧
    (∀ (t : String) (em : Email), t.data ≠ [] → vt store t = .ok em →
      HashsetBannedTokenStore.is_banned store t = true →
      handle_logout vt store (some t) = (store, .error .InvalidToken)) := by
  refine ⟨rfl, rfl, ?_, ?_⟩
  · intro t ht hv
    unfold handle_logout
    simp [List.isEmpty_iff, ht, hv, logoutErrToAPI]
  · intro t em ht hv hb
    unfold handle_logout
    simp [List.isEmpty_iff, ht, hv, logoutErrToAPI, ban_token_of_banned store t hb]

/-- Witness for C5 at concrete ledgers, validators and tokens: all four
error paths produce the stated outcomes. -/
theorem logout_error_paths_witness :
    handle_logout (fun _ _ => .ok ⟨"a@b.com"⟩) ⟨["tok"]⟩ none =
      (⟨["tok"]⟩, .error .MissingToken) ∧
    handle_logout (fun _ _ => .ok ⟨"a@b.com"⟩) ⟨["tok"]⟩ (some "") =
      (⟨["tok"]⟩, .error .InvalidToken) ∧
    handle_logout (fun _ _ => .error ()) ⟨["tok"]⟩ (some "bad") =
      (⟨["tok"]⟩, .error .InvalidToken) ∧
    handle_logout (fun _ _ => .ok ⟨"a@b.com"⟩) ⟨["tok"]⟩ (some "tok") =
      (⟨["tok"]⟩, .error .InvalidToken) :=
  ⟨(logout_error_paths (fun _ _ => .ok ⟨"a@b.com"⟩) ⟨["tok"]⟩).1,
    (logout_error_paths (fun _ _ => .ok ⟨"a@b.com"⟩) ⟨["tok"]⟩).2.1,
    (logout_error_paths (fun _ _ => .error ()) ⟨["tok"]⟩).2.2.1 "bad" (by decide) rfl,
    (logout_error_paths (fun _ _ => .ok ⟨"a@b.com"⟩) ⟨["tok"]⟩).2.2.2 "tok" ⟨"a@b.com"⟩
      (by decide) rfl (by decide)⟩

/-- C7: login returns 401 both for an unregistered email and for a
registered email with a mismatching password, without distinguishing the
two causes.  The payload is assumed to pass the format gates
(`Email::parse` and the `HashedPassword::parse` rules) that run before the
credential check. -/
theorem login_unknown_email_or_mismatch_unauthorized (genCookie : GenCookie)
    (freshId : LoginAttemptId) (freshCode : TwoFACode)
    (sendEmail : Email → String → Except Unit Unit)
    (userStore : UserMap) (st : TwoFAMap) (payload : LoginPayload)
    (email : Email) (hp : HashedPassword)
    (he : Email.parse payload.email = .ok email)
    (hpw : HashedPassword.parse payload.password = .ok hp)
    (hcase : UserMap.get_user userStore email = .error .UserNotFound ∨
      ∃ u : User, UserMap.get_user userStore email = .ok u ∧
        u.password.s ≠ payload.password) :
    handle_login genCookie freshId freshCode sendEmail userStore st payload =
      (st, .err .Unauthorized) := by
  have hv : UserMap.validate_user userStore email payload.password =
      .error .UserNotFound ∨
      UserMap.validate_user userStore email payload.password =
      .error .InvalidCredentials := by
    unfold UserMap.validate_user
    rcases hcase with h | ⟨u, hu, hne⟩
    · rw [h]; exact Or.inl rfl
    · rw [hu]; simp [hne]
  unfold handle_login
  rcases hv with h | h <;> simp [he, hpw, h]

/-- Witness for C7: an unregistered email and a registered email with a
wrong (but well-formed) password both yield `Unauthorized`. -/
theorem login_unknown_email_or_mismatch_unauthorized_witness :
    handle_login (fun _ => .ok ⟨"t"⟩) ⟨"id"⟩ ⟨"123456"⟩ (fun _ _ => .ok ())
        [] [] ⟨"a@b.com", "Password123"⟩ = ([], .err .Unauthorized) ∧
    handle_login (fun _ => .ok ⟨"t"⟩) ⟨"id"⟩ ⟨"123456"⟩ (fun _ _ => .ok ())
        [(⟨"a@b.com"⟩, ⟨⟨"a@b.com"⟩, ⟨"Password123"⟩, false⟩)] []
        ⟨"a@b.com", "Password124"⟩ = ([], .err .Unauthorized) :=
  ⟨login_unknown_email_or_mismatch_unauthorized _ _ _ _ _ _ _ ⟨"a@b.com"⟩
      ⟨"Password123"⟩ rfl rfl (Or.inl rfl),
    login_unknown_email_or_mismatch_unauthorized _ _ _ _ _ _ _ ⟨"a@b.com"⟩
      ⟨"Password124"⟩ rfl rfl
      (Or.inr ⟨⟨⟨"a@b.com"⟩, ⟨"Password123"⟩, false⟩, rfl, by decide⟩)⟩

/-- C8 counterexample: `"aaaaaaaa"` violates the `Password::parse` rules
(`MissingUppercase`), yet `handle_signup` accepts it and creates the user —
the signup boundary does not apply the full password format rules. -/
theorem signup_full_password_rules_counterexample :
    Password.parse "aaaaaaaa" = .error .MissingUppercase ∧
    handle_signup [] ⟨"user@example.com", "aaaaaaaa", false⟩ =
      ([("user@example.com", ⟨"user@example.com", "aaaaaaaa", false⟩)], .ok ()) :=
  ⟨rfl, rfl⟩

/-- C8 (amended): the signup boundary checks only the minimum-length rule
(`is_valid_pwd` is `chars().count() >= 8`): every signup request whose
password has fewer than 8 Unicode scalars gets the `InvalidCredentials`
(400) outcome and no user is created. -/
theorem signup_password_minlength_only (store : RawUserMap) (payload : SignupPayload)
    (h : payload.password.data.length < 8) :
    handle_signup store payload = (store, .error .InvalidCredentials) := by
  unfold handle_signup
  have hpwd : is_valid_pwd payload.password = false := by
    unfold is_valid_pwd
    simpa using h
  simp [hpwd]

/-- Witness for the amended C8 at a concrete short password. -/
theorem signup_password_minlength_only_witness :
    handle_signup [] ⟨"user@example.com", "Short1", false⟩ =
      ([], .error .InvalidCredentials) :=
  signup_password_minlength_only [] ⟨"user@example.com", "Short1", false⟩ (by decide)

/-- C10: signup and login validate emails differently.  `Email::parse`
accepts `"user@localhost"` (no TLD) and `" user@example.com"` (leading
space, trimmed), so login processes them — on an empty user store the
first reaches the credential check and fails 401, not 400 — while signup's
regex `is_valid_email` rejects both, so `handle_signup` returns the 400
`InvalidCredentials` outcome. -/
theorem signup_login_email_validation_divergence :
    Email.parse "user@localhost" = .ok ⟨"user@localhost"⟩ ∧
    is_valid_email "user@localhost" = false ∧
    handle_signup [] ⟨"user@localhost", "Password123", false⟩ =
      ([], .error .InvalidCredentials) ∧
    Email.parse " user@example.com" = .ok ⟨"user@example.com"⟩ ∧
    is_valid_email " user@example.com" = false ∧
    handle_signup [] ⟨" user@example.com", "Password123", false⟩ =
      ([], .error .InvalidCredentials) ∧
    handle_login (fun _ => .ok ⟨"t"⟩) ⟨"id"⟩ ⟨"123456"⟩ (fun _ _ => .ok ())
        [] [] ⟨"user@localhost", "Password123"⟩ = ([], .err .Unauthorized) ∧
    AuthAPIError.status .InvalidCredentials = 400 :=
  ⟨rfl, rfl, rfl, rfl, rfl, rfl, rfl, rfl⟩

/-! ## Model validation against the repository's own unit tests

Each `example` reproduces a behaviour pinned by a test in
`domain/email.rs`, `domain/password.rs`, `domain/two_fa_code.rs` or
`domain/login_attempt_id.rs`, checking the embedding against the source. -/

example : Email.parse "  user@example.com  " = .ok ⟨"user@example.com"⟩ := rfl
example : Email.parse "user@example" = .ok ⟨"user@example"⟩ := rfl
example : Email.parse "user@" = .error .InvalidFormat := rfl
example : Email.parse "@example.com" = .error .InvalidFormat := rfl
example : Email.parse "user@.example.com" = .error .InvalidFormat := rfl
example : Email.parse "user@example.com." = .error .InvalidFormat := rfl
example : Email.parse "user@@example.com" = .error .InvalidFormat := rfl
example : Email.parse "user name@example.com" = .error .InvalidFormat := rfl
example : Email.parse "user..name@example.com" = .ok ⟨"user..name@example.com"⟩ := rfl
example : Email.parse "" = .error .Empty := rfl
example : Email.parse "   " = .error .Empty := rfl
example : Email.parse "userexample.com" = .error .InvalidFormat := rfl
example : Email.parse "user+tag@my-domain.com" = .ok ⟨"user+tag@my-domain.com"⟩ := rfl
example : Password.parse "Password123" = .ok ⟨"Password123"⟩ := rfl
example : Password.parse "" = .error .Empty := rfl
example : Password.parse "Pass1" = .error .TooShort := rfl
example : Password.parse "password123" = .error .MissingUppercase := rfl
example : Password.parse "PASSWORD123" = .error .MissingLowercase := rfl
example : Password.parse "PasswordABC" = .error .MissingDigit := rfl
example : Password.parse "password" = .error .MissingUppercase := rfl
example : TwoFACode.parse "123456" = .ok ⟨"123456"⟩ := rfl
example : TwoFACode.parse "000000" = .ok ⟨"000000"⟩ := rfl
example : TwoFACode.parse "12345" = .error () := rfl
example : TwoFACode.parse "1234567" = .error () := rfl
example : TwoFACode.parse "12345a" = .error () := rfl
example : TwoFACode.parse " 123456" = .error () := rfl
example :
    LoginAttemptId.parse "550e8400-e29b-41d4-a716-446655440000" =
      .ok ⟨"550e8400-e29b-41d4-a716-446655440000"⟩ := rfl
example :
    LoginAttemptId.parse "FFFFFFFF-FFFF-FFFF-FFFF-FFFFFFFFFFFF" =
      .ok ⟨"ffffffff-ffff-ffff-ffff-ffffffffffff"⟩ := rfl
example : LoginAttemptId.parse "" = .error () := rfl
example : LoginAttemptId.parse "not-a-uuid" = .error () := rfl
example : LoginAttemptId.parse "550e8400-e29b-41d4-a716" = .error () := rfl
example : LoginAttemptId.parse "550e8400e29b41d4a716446655440000" = .error () := rfl
example : LoginAttemptId.parse "550e8400-e29b-41d4-a716-44665544000g" = .error () := rfl
example : LoginAttemptId.parse "550e-8400-e29b-41d4-a716-446655440000" = .error () := rfl
example : LoginAttemptId.parse "550e8400--e29b-41d4-a716-446655440000" = .error () := rfl

end Auth
